import Mathlib

set_option maxHeartbeats 1000000

/-!
Verification development for the crash-capture subsystem (vectored exception
handler) of the `ctd` repository.  The definitions below are a shallow
embedding of `src/mods/newvegas/cpp/veh.cpp` (exception classifier, module
resolver, bounded stack walker, VEH handler, handler registration) and of the
packed-version formatters of `src/mods/falloutnv/cpp/plugin.cpp` and
`src/mods/fallout3/cpp/plugin.cpp`.  Machine integers (DWORD, uintptr_t) are
modelled as `Nat`; OS facilities (the loader's module table and the DbgHelp
`StackWalk` unwind step) are modelled as an explicit environment record.
-/

/-! ## Windows constants (winnt.h values used by veh.cpp) -/

def EXCEPTION_ACCESS_VIOLATION : Nat := 0xC0000005
def EXCEPTION_IN_PAGE_ERROR : Nat := 0xC0000006
def EXCEPTION_INVALID_HANDLE : Nat := 0xC0000008
def EXCEPTION_ILLEGAL_INSTRUCTION : Nat := 0xC000001D
def EXCEPTION_INT_DIVIDE_BY_ZERO : Nat := 0xC0000094
def EXCEPTION_INT_OVERFLOW : Nat := 0xC0000095
def EXCEPTION_PRIV_INSTRUCTION : Nat := 0xC0000096
def EXCEPTION_STACK_OVERFLOW : Nat := 0xC00000FD
def STATUS_HEAP_CORRUPTION : Nat := 0xC0000374
def STATUS_STACK_BUFFER_OVERRUN : Nat := 0xC0000409

/-- The "continue searching" disposition a VEH handler returns (LONG 0). -/
def EXCEPTION_CONTINUE_SEARCH : Int := 0

/-! ## Exception classifier (veh.cpp lines 18-34) -/

/-- Embedding of `is_fatal_exception`: the C++ `switch` over the fault code,
returning `true` on the ten enumerated case labels and `false` on `default`. -/
def is_fatal_exception (code : Nat) : Bool :=
  if code = EXCEPTION_ACCESS_VIOLATION ∨
     code = EXCEPTION_STACK_OVERFLOW ∨
     code = EXCEPTION_ILLEGAL_INSTRUCTION ∨
     code = EXCEPTION_INT_DIVIDE_BY_ZERO ∨
     code = EXCEPTION_INT_OVERFLOW ∨
     code = EXCEPTION_PRIV_INSTRUCTION ∨
     code = EXCEPTION_IN_PAGE_ERROR ∨
     code = EXCEPTION_INVALID_HANDLE ∨
     code = STATUS_HEAP_CORRUPTION ∨
     code = STATUS_STACK_BUFFER_OVERRUN
  then true else false

/-! ## OS environment: loader module table and unwind step -/

/-- A loaded binary image in the process: its file path, base address and
mapped size.  `GetModuleHandleExA(FROM_ADDRESS, a, ..)` succeeds exactly when
`a` lies inside some image's mapped range. -/
structure ModuleImage where
  path : String
  base : Nat
  size : Nat
deriving DecidableEq

/-- Faulting-thread register snapshot (the fields of `CONTEXT` veh.cpp reads:
`Eip`, `Ebp`, `Esp`). -/
structure Context where
  eip : Nat
  ebp : Nat
  esp : Nat
deriving DecidableEq

/-- The OS facilities veh.cpp calls: the loader's in-process module table and
the DbgHelp `StackWalk` unwind step.  `stackWalk ctx i` is the outcome of the
`i`-th `StackWalk` call for a walk seeded from context `ctx`: `none` when the
call reports failure, `some pc` when it succeeds with recovered program
counter `pc` (a DWORD). -/
structure OS where
  modules : List ModuleImage
  stackWalk : Context → Nat → Option Nat

/-- Does the mapped range of image `m` contain address `addr`? -/
def moduleContains (m : ModuleImage) (addr : Nat) : Bool :=
  decide (m.base ≤ addr) && decide (addr < m.base + m.size)

/-- `GetModuleHandleExA(FROM_ADDRESS, addr, ..)`: the loader returns the
(first) module whose mapped range contains `addr`, or fails. -/
def find_module (env : OS) (addr : Nat) : Option ModuleImage :=
  env.modules.find? (fun m => moduleContains m addr)

/-- `path.find_last_of("\\/")` followed by `substr(pos + 1)` in
`get_module_name`: keep the suffix of `path` after the last `\` or `/`
(the whole string when neither occurs). -/
def basename (path : String) : String :=
  String.mk (path.data.foldl (fun acc c => if c = '\\' ∨ c = '/' then [] else acc ++ [c]) [])

/-- Embedding of `get_module_name` (veh.cpp lines 37-51): the file name of the
module whose range contains `address`, or the literal `"unknown"` when the
loader lookup fails.  (`GetModuleFileNameA` on a live module handle is
modelled as returning the image's path.) -/
def get_module_name (env : OS) (address : Nat) : String :=
  match find_module env address with
  | some m => basename m.path
  | none => "unknown"

/-- Embedding of `get_module_base` (veh.cpp lines 54-63): the base address of
the module whose range contains `address`, or `0` when the lookup fails. -/
def get_module_base (env : OS) (address : Nat) : Nat :=
  match find_module env address with
  | some m => m.base
  | none => 0

/-! ## Stack walker (veh.cpp lines 66-116) -/

/-- One line of the trace: the per-frame data veh.cpp interpolates into the
`ostringstream` at lines 104-110. -/
structure StackFrame where
  index : Nat
  module_name : String
  module_offset : Nat
  absolute_address : Nat
deriving DecidableEq

/-- The frame emitted for loop index `i` when `StackWalk` recovered program
counter `pc`: module name and base are resolved for `pc`, and
`offset = frame.AddrPC.Offset - base` (veh.cpp line 107; `base ≤ pc` whenever
the lookup succeeds, and `base = 0` otherwise, so the 32-bit subtraction never
wraps and `Nat` subtraction is exact). -/
def mkFrame (env : OS) (i pc : Nat) : StackFrame :=
  { index := i
    module_name := get_module_name env pc
    module_offset := pc - get_module_base env pc
    absolute_address := pc }

/-- The `for (int i = 0; i < 64; ++i)` loop of `capture_stack_trace`, with the
remaining iteration count as fuel: each iteration calls `StackWalk` (breaking
on failure), breaks when the recovered `AddrPC.Offset` is zero, and otherwise
emits a frame and continues. -/
def walkAux (env : OS) (ctx : Context) : Nat → Nat → List StackFrame
  | _, 0 => []
  | i, fuel + 1 =>
    match env.stackWalk ctx i with
    | none => []
    | some pc => if pc = 0 then [] else mkFrame env i pc :: walkAux env ctx (i + 1) fuel

/-- The frame sequence collected by `capture_stack_trace` for a fault context:
the loop starting at `i = 0` with at most 64 iterations. -/
def capture_frames (env : OS) (ctx : Context) : List StackFrame :=
  walkAux env ctx 0 64

/-- Lower-case hexadecimal rendering (`std::hex` on an unsigned value). -/
def hexStr (n : Nat) : String :=
  (Nat.toDigits 16 n).asString

/-- The text veh.cpp appends to the trace for one frame (line 109-110):
`[i] module+0xOFFSET (0xADDR)` and a newline.  The `std::hex` manipulator is
sticky on the `ostringstream`, so from the second line on the index is
rendered in hexadecimal too; on the first line the index is 0, whose decimal
and hexadecimal renderings coincide, so hexadecimal is used uniformly here. -/
def frameLine (f : StackFrame) : String :=
  "[" ++ hexStr f.index ++ "] " ++ f.module_name ++ "+0x" ++ hexStr f.module_offset
    ++ " (0x" ++ hexStr f.absolute_address ++ ")\n"

/-- Embedding of `capture_stack_trace` (veh.cpp lines 66-116): the
concatenation of the per-frame lines of the collected frames. -/
def capture_stack_trace (env : OS) (ctx : Context) : String :=
  String.join ((capture_frames env ctx).map frameLine)

/-! ## VEH handler (veh.cpp lines 119-141) -/

/-- The `ctd::ExceptionData` struct handed to `ctd::handle_crash`
(fields set at veh.cpp lines 131-135). -/
structure ExceptionData where
  code : Nat
  address : Nat
  stack_trace : String
  faulting_module : String
deriving DecidableEq

/-- Windows `EXCEPTION_RECORD`: the fields veh.cpp reads. -/
structure ExceptionRecord where
  exceptionCode : Nat
  exceptionAddress : Nat
deriving DecidableEq

/-- Windows `EXCEPTION_POINTERS`: an optional exception record (the pointer
may be null) and the context record. -/
structure ExceptionPointers where
  exceptionRecord : Option ExceptionRecord
  contextRecord : Context
deriving DecidableEq

/-- Result of one `veh_handler` invocation: the returned disposition and the
list of `ctd::handle_crash` calls performed (the handler's only externally
observable effect). -/
structure VehResult where
  disposition : Int
  crashes : List ExceptionData
deriving DecidableEq

/-- Embedding of `veh_handler` (veh.cpp lines 119-141).  A null
`EXCEPTION_POINTERS` or a null `ExceptionRecord` is modelled by `none`; each
early `return` of the C++ is a branch here, and the C++'s
`if (!is_fatal_exception(code)) return ...` early-out is the
`is_fatal_exception code = false` branch. -/
def veh_handler (env : OS) (info : Option ExceptionPointers) : VehResult :=
  match info with
  | none => ⟨EXCEPTION_CONTINUE_SEARCH, []⟩
  | some p =>
    match p.exceptionRecord with
    | none => ⟨EXCEPTION_CONTINUE_SEARCH, []⟩
    | some r =>
      if is_fatal_exception r.exceptionCode = false then
        ⟨EXCEPTION_CONTINUE_SEARCH, []⟩
      else
        ⟨EXCEPTION_CONTINUE_SEARCH,
         [{ code := r.exceptionCode
            address := r.exceptionAddress
            stack_trace := capture_stack_trace env p.contextRecord
            faulting_module := get_module_name env r.exceptionAddress }]⟩

/-! ## Registration and OS fault dispatch (veh.cpp lines 147-149) -/

/-- Embedding of `register_veh_handler`: `AddVectoredExceptionHandler(1, veh_handler)`
adds another entry for `veh_handler` to the process's VEH chain,
unconditionally.  The process state is the number of chain entries holding
`veh_handler`. -/
def register_veh_handler (chain : Nat) : Nat := chain + 1

/-- OS vectored-exception dispatch semantics: on a fault, the OS invokes each
registered handler in chain order, continuing to the next entry as long as the
previous one returned `EXCEPTION_CONTINUE_SEARCH`.  Every entry of the chain
here is `veh_handler`. -/
def dispatch_fault (env : OS) (info : Option ExceptionPointers) : Nat → List ExceptionData
  | 0 => []
  | k + 1 =>
    let r := veh_handler env info
    r.crashes ++ (if r.disposition = EXCEPTION_CONTINUE_SEARCH then dispatch_fault env info k else [])

/-! ## Version providers (falloutnv/cpp/plugin.cpp, fallout3/cpp/plugin.cpp) -/

namespace falloutnv

/-- The fields of xNVSE's `NVSEInterface` read by the adapter. -/
structure NVSEInterface where
  runtimeVersion : Nat
  nvseVersion : Nat
deriving DecidableEq

/-- Embedding of `get_game_version` (falloutnv/cpp/plugin.cpp lines 102-115):
`snprintf("%d.%d.%d.%d", v>>24 & 0xFF, v>>16 & 0xFF, v>>8 & 0xFF, v & 0xFF)`
on `g_nvse->runtimeVersion`, or `"unknown"` when `g_nvse` is null.
(`& 0xFF` on a `uint32_t` is `% 256`.) -/
def get_game_version (gNvse : Option NVSEInterface) : String :=
  match gNvse with
  | some nvse =>
    toString ((nvse.runtimeVersion >>> 24) % 256) ++ "." ++
    toString ((nvse.runtimeVersion >>> 16) % 256) ++ "." ++
    toString ((nvse.runtimeVersion >>> 8) % 256) ++ "." ++
    toString (nvse.runtimeVersion % 256)
  | none => "unknown"

/-- Embedding of `get_nvse_version` (falloutnv/cpp/plugin.cpp lines 118-129):
`snprintf("%d.%d.%d", v>>24 & 0xFF, v>>16 & 0xFF, v & 0xFF)` on
`g_nvse->nvseVersion`, or `"unknown"` when `g_nvse` is null.  Note the third
component is the low byte `v & 0xFF` (byte0), not `v>>8 & 0xFF`. -/
def get_nvse_version (gNvse : Option NVSEInterface) : String :=
  match gNvse with
  | some nvse =>
    toString ((nvse.nvseVersion >>> 24) % 256) ++ "." ++
    toString ((nvse.nvseVersion >>> 16) % 256) ++ "." ++
    toString (nvse.nvseVersion % 256)
  | none => "unknown"

end falloutnv

namespace fallout3

/-- The fields of FOSE's interface read by the adapter. -/
structure FOSEInterface where
  runtimeVersion : Nat
  foseVersion : Nat
deriving DecidableEq

/-- Embedding of `get_fose_version` (fallout3/cpp/plugin.cpp lines 113-124):
`snprintf("%d.%d.%d", v>>24 & 0xFF, v>>16 & 0xFF, v & 0xFF)` on
`g_fose->foseVersion`, or `"unknown"` when `g_fose` is null.  Note the third
component is the low byte `v & 0xFF` (byte0), not `v>>8 & 0xFF`. -/
def get_fose_version (gFose : Option FOSEInterface) : String :=
  match gFose with
  | some fose =>
    toString ((fose.foseVersion >>> 24) % 256) ++ "." ++
    toString ((fose.foseVersion >>> 16) % 256) ++ "." ++
    toString (fose.foseVersion % 256)
  | none => "unknown"

end fallout3

/-! ## Spec-side definitions (for refinement-style claims) -/

/-- Modelled from the spec: the fixed enumerated fatal set of §4.2 (access
violation, stack overflow, illegal instruction, integer divide-by-zero,
integer overflow, privileged instruction, in-page/paging error, invalid
handle, heap corruption 0xC0000374, stack-buffer overrun 0xC0000409). -/
def spec_fatal_codes : List Nat :=
  [EXCEPTION_ACCESS_VIOLATION, EXCEPTION_STACK_OVERFLOW,
   EXCEPTION_ILLEGAL_INSTRUCTION, EXCEPTION_INT_DIVIDE_BY_ZERO,
   EXCEPTION_INT_OVERFLOW, EXCEPTION_PRIV_INSTRUCTION,
   EXCEPTION_IN_PAGE_ERROR, EXCEPTION_INVALID_HANDLE,
   STATUS_HEAP_CORRUPTION, STATUS_STACK_BUFFER_OVERRUN]

/-- Modelled from the spec: the 4-component dotted string
`byte3.byte2.byte1.byte0` of a 32-bit packed value (§6 Version providers). -/
def spec_dotted4 (v : Nat) : String :=
  toString ((v >>> 24) % 256) ++ "." ++ toString ((v >>> 16) % 256) ++ "." ++
  toString ((v >>> 8) % 256) ++ "." ++ toString (v % 256)

/-- Modelled from the spec: the 3-component dotted string
`byte3.byte2.(byte1<<8|byte0)` of a 32-bit packed value (§6). -/
def spec_dotted3_low16 (v : Nat) : String :=
  toString ((v >>> 24) % 256) ++ "." ++ toString ((v >>> 16) % 256) ++ "." ++
  toString ((((v >>> 8) % 256) <<< 8) ||| (v % 256))

/-- Modelled from the spec: the 3-component dotted string `byte3.byte2.byte1`
of a 32-bit packed value (§6). -/
def spec_dotted3_byte1 (v : Nat) : String :=
  toString ((v >>> 24) % 256) ++ "." ++ toString ((v >>> 16) % 256) ++ "." ++
  toString ((v >>> 8) % 256)

/-- The 3-component dotted string `byte3.byte2.byte0` of a 32-bit packed
value: the layout the cited adapters actually print (third `snprintf`
argument `version & 0xFF`). -/
def spec_dotted3_byte0 (v : Nat) : String :=
  toString ((v >>> 24) % 256) ++ "." ++ toString ((v >>> 16) % 256) ++ "." ++
  toString (v % 256)

/-! ## Concrete inputs used by witnesses and the double-registration run -/

/-- A concrete loaded image: `game.exe` mapped at `[0x400000, 0x500000)`. -/
def modW : ModuleImage :=
  { path := "game.exe", base := 0x400000, size := 0x100000 }

/-- A concrete process environment: one loaded image and an unwind step that
recovers the faulting program counter once and then fails. -/
def envW : OS :=
  { modules := [modW]
    stackWalk := fun _ i => if i = 0 then some 0x401234 else none }

/-- A second concrete environment, with no loaded images and an unwind step
that always fails; used to exhibit independence from the OS facilities. -/
def envE : OS :=
  { modules := [], stackWalk := fun _ _ => none }

/-- A concrete fault record: access violation at `0x401234` (inside
`game.exe`). -/
def recW : ExceptionRecord :=
  { exceptionCode := 0xC0000005, exceptionAddress := 0x401234 }

/-- A concrete fault: access violation at `0x401234` (inside `game.exe`). -/
def infoW : ExceptionPointers :=
  { exceptionRecord := some recW
    contextRecord := { eip := 0x401234, ebp := 0x19FF00, esp := 0x19FEF0 } }

/-- A concrete non-fatal, first-chance informational fault record
(`DBG_PRINTEXCEPTION_C`). -/
def recNF : ExceptionRecord :=
  { exceptionCode := 0x40010006, exceptionAddress := 0x401234 }

/-- A concrete non-fatal fault. -/
def infoNF : ExceptionPointers :=
  { exceptionRecord := some recNF
    contextRecord := { eip := 0x401234, ebp := 0x19FF00, esp := 0x19FEF0 } }

/-- An environment whose unwind step succeeds with a nonzero program counter
on the first three calls and then reports failure. -/
def env6 : OS :=
  { modules := []
    stackWalk := fun _ i => if i < 3 then some (0x1000 + i) else none }

/-- A concrete fault context. -/
def ctx6 : Context :=
  { eip := 0x1000, ebp := 0x19FF00, esp := 0x19FEF0 }

/-! ## Helper lemmas about the stack walker -/

theorem walkAux_none (env : OS) (ctx : Context) (i fuel : Nat)
    (h : env.stackWalk ctx i = none) :
    walkAux env ctx i (fuel + 1) = [] := by
  simp [walkAux, h]

theorem walkAux_zero (env : OS) (ctx : Context) (i fuel : Nat)
    (h : env.stackWalk ctx i = some 0) :
    walkAux env ctx i (fuel + 1) = [] := by
  simp [walkAux, h]

theorem walkAux_step (env : OS) (ctx : Context) (i fuel pc : Nat)
    (h : env.stackWalk ctx i = some pc) (hpc : pc ≠ 0) :
    walkAux env ctx i (fuel + 1) = mkFrame env i pc :: walkAux env ctx (i + 1) fuel := by
  simp [walkAux, h, hpc]

theorem walkAux_length_le (env : OS) (ctx : Context) :
    ∀ (fuel i : Nat), (walkAux env ctx i fuel).length ≤ fuel := by
  intro fuel
  induction fuel with
  | zero => intro i; simp [walkAux]
  | succ n ih =>
    intro i
    cases h : env.stackWalk ctx i with
    | none => rw [walkAux_none env ctx i n h]; simp
    | some pc =>
      by_cases hpc : pc = 0
      · subst hpc; rw [walkAux_zero env ctx i n h]; simp
      · rw [walkAux_step env ctx i n pc h hpc]
        simpa using ih (i + 1)

theorem walkAux_map_index (env : OS) (ctx : Context) :
    ∀ (fuel i : Nat),
      (walkAux env ctx i fuel).map StackFrame.index
        = List.range' i (walkAux env ctx i fuel).length := by
  intro fuel
  induction fuel with
  | zero => intro i; simp [walkAux]
  | succ n ih =>
    intro i
    cases h : env.stackWalk ctx i with
    | none => rw [walkAux_none env ctx i n h]; simp
    | some pc =>
      by_cases hpc : pc = 0
      · subst hpc; rw [walkAux_zero env ctx i n h]; simp
      · rw [walkAux_step env ctx i n pc h hpc]
        simp only [List.map_cons, List.length_cons, List.range'_succ]
        rw [ih (i + 1)]
        simp [mkFrame]

theorem walkAux_stop (env : OS) (ctx : Context) :
    ∀ (fuel i : Nat), (walkAux env ctx i fuel).length < fuel →
      env.stackWalk ctx (i + (walkAux env ctx i fuel).length) = none ∨
      env.stackWalk ctx (i + (walkAux env ctx i fuel).length) = some 0 := by
  intro fuel
  induction fuel with
  | zero => intro i h; omega
  | succ n ih =>
    intro i hlt
    cases h : env.stackWalk ctx i with
    | none =>
      rw [walkAux_none env ctx i n h]
      simpa using Or.inl h
    | some pc =>
      by_cases hpc : pc = 0
      · subst hpc
        rw [walkAux_zero env ctx i n h]
        simpa using Or.inr h
      · rw [walkAux_step env ctx i n pc h hpc] at hlt ⊢
        simp only [List.length_cons] at hlt ⊢
        have harith : i + ((walkAux env ctx (i + 1) n).length + 1)
            = (i + 1) + (walkAux env ctx (i + 1) n).length := by omega
        rw [harith]
        exact ih (i + 1) (by omega)

theorem walkAux_success (env : OS) (ctx : Context) :
    ∀ (fuel i k : Nat), k < (walkAux env ctx i fuel).length →
      ∃ pc, env.stackWalk ctx (i + k) = some pc ∧ pc ≠ 0 := by
  intro fuel
  induction fuel with
  | zero => intro i k h; simp [walkAux] at h
  | succ n ih =>
    intro i k hk
    cases h : env.stackWalk ctx i with
    | none => rw [walkAux_none env ctx i n h] at hk; simp at hk
    | some pc =>
      by_cases hpc : pc = 0
      · subst hpc; rw [walkAux_zero env ctx i n h] at hk; simp at hk
      · rw [walkAux_step env ctx i n pc h hpc] at hk
        simp only [List.length_cons] at hk
        cases k with
        | zero => exact ⟨pc, by simpa using h, hpc⟩
        | succ k =>
          have harith : i + (k + 1) = (i + 1) + k := by omega
          rw [harith]
          exact ih (i + 1) k (by omega)

theorem walkAux_shape (env : OS) (ctx : Context) :
    ∀ (fuel i : Nat) (f : StackFrame), f ∈ walkAux env ctx i fuel →
      f = mkFrame env f.index f.absolute_address := by
  intro fuel
  induction fuel with
  | zero => intro i f h; simp [walkAux] at h
  | succ n ih =>
    intro i f hf
    cases h : env.stackWalk ctx i with
    | none => rw [walkAux_none env ctx i n h] at hf; simp at hf
    | some pc =>
      by_cases hpc : pc = 0
      · subst hpc; rw [walkAux_zero env ctx i n h] at hf; simp at hf
      · rw [walkAux_step env ctx i n pc h hpc] at hf
        rcases List.mem_cons.mp hf with heq | hmem
        · subst heq; simp [mkFrame]
        · exact ih (i + 1) f hmem

theorem find?_eq_of_unique {α : Type} (p : α → Bool) (l : List α) (a : α)
    (ha : a ∈ l) (hpa : p a = true)
    (hu : ∀ b ∈ l, p b = true → b = a) :
    l.find? p = some a := by
  induction l with
  | nil => cases ha
  | cons x xs ih =>
    by_cases hx : p x = true
    · have hxa : x = a := hu x (List.mem_cons_self x xs) hx
      subst hxa
      simp [List.find?, hx]
    · have hax : a ∈ xs := by
        rcases List.mem_cons.mp ha with h | h
        · exact absurd (h ▸ hpa) hx
        · exact h
      have : xs.find? p = some a :=
        ih hax (fun b hb hpb => hu b (List.mem_cons_of_mem x hb) hpb)
      simpa [List.find?, hx] using this

theorem find_module_eq_some (env : OS) (addr : Nat) (m : ModuleImage)
    (hm : m ∈ env.modules) (hc : moduleContains m addr = true)
    (hu : ∀ m' ∈ env.modules, moduleContains m' addr = true → m' = m) :
    find_module env addr = some m :=
  find?_eq_of_unique _ env.modules m hm hc hu

theorem find_module_eq_none (env : OS) (addr : Nat)
    (h : ∀ m ∈ env.modules, moduleContains m addr = false) :
    find_module env addr = none := by
  rw [find_module, List.find?_eq_none]
  intro m hm
  simp [h m hm]

theorem capture_frames_length_le (env : OS) (ctx : Context) :
    (capture_frames env ctx).length ≤ 64 :=
  walkAux_length_le env ctx 64 0

theorem capture_frames_stop (env : OS) (ctx : Context)
    (h : (capture_frames env ctx).length < 64) :
    env.stackWalk ctx (capture_frames env ctx).length = none ∨
    env.stackWalk ctx (capture_frames env ctx).length = some 0 := by
  have hs := walkAux_stop env ctx 64 0 h
  rw [Nat.zero_add] at hs
  exact hs

theorem capture_frames_success (env : OS) (ctx : Context) (k : Nat)
    (h : k < (capture_frames env ctx).length) :
    ∃ pc, env.stackWalk ctx k = some pc ∧ pc ≠ 0 := by
  have hs := walkAux_success env ctx 64 0 k h
  rwa [Nat.zero_add] at hs

theorem capture_frames_map_index (env : OS) (ctx : Context) :
    (capture_frames env ctx).map StackFrame.index
      = List.range' 0 (capture_frames env ctx).length :=
  walkAux_map_index env ctx 64 0

/-! ## Claim theorems -/

/-- Claim C1: every invocation of `veh_handler`, whatever the fault code and
whether or not a crash record is built and handed off, returns
`EXCEPTION_CONTINUE_SEARCH`; no execution path returns any other value. -/
theorem veh_handler_always_continues_search (env : OS) (info : Option ExceptionPointers) :
    (veh_handler env info).disposition = EXCEPTION_CONTINUE_SEARCH := by
  cases info with
  | none => rfl
  | some p =>
    obtain ⟨er, cr⟩ := p
    cases er with
    | none => rfl
    | some r =>
      by_cases h : is_fatal_exception r.exceptionCode = false <;>
        simp [veh_handler, h]

/-- Claim C4: the classifier is a total pure function of the fault code,
returning fatal exactly on the ten enumerated codes of the fixed set and
ignorable on every other code. -/
theorem classifier_matches_spec_fatal_set (code : Nat) :
    is_fatal_exception code = true ↔ code ∈ spec_fatal_codes := by
  rw [is_fatal_exception, spec_fatal_codes]
  constructor
  · intro h
    split_ifs at h with hc
    simp only [List.mem_cons, List.mem_singleton]
    tauto
  · intro h
    simp only [List.mem_cons, List.mem_singleton, List.not_mem_nil, or_false] at h
    split_ifs
    rfl

/-- Claim C5: for every environment and fault context, the stack walker emits
at most 64 frames, and the emitted frames carry indices `0, 1, ...` in order
from innermost outward. -/
theorem stack_walker_bounded_and_ordered (env : OS) (ctx : Context) :
    (capture_frames env ctx).length ≤ 64 ∧
    (capture_frames env ctx).map StackFrame.index
      = List.range (capture_frames env ctx).length := by
  constructor
  · exact walkAux_length_le env ctx 64 0
  · rw [List.range_eq_range']
    exact walkAux_map_index env ctx 64 0

/-- Claim C3: for a fault whose code is not in the fatal set the handler
builds no record and performs no handoff, returns "continue searching"
immediately, and its result does not depend on the OS environment at all
(in particular the stack walker and module resolver are never consulted). -/
theorem veh_nonfatal_no_capture (env env' : OS) (p : ExceptionPointers)
    (r : ExceptionRecord)
    (hrec : p.exceptionRecord = some r)
    (hfatal : is_fatal_exception r.exceptionCode = false) :
    veh_handler env (some p) = ⟨EXCEPTION_CONTINUE_SEARCH, []⟩ ∧
    veh_handler env' (some p) = veh_handler env (some p) := by
  constructor <;> simp [veh_handler, hrec, hfatal]

/-- Witness for C3: a concrete first-chance informational exception
(`DBG_PRINTEXCEPTION_C = 0x40010006`) produces no record in two unrelated
environments. -/
theorem veh_nonfatal_no_capture_witness :
    (infoNF.exceptionRecord = some recNF ∧
     is_fatal_exception recNF.exceptionCode = false) ∧
    (veh_handler envW (some infoNF) = ⟨EXCEPTION_CONTINUE_SEARCH, []⟩ ∧
     veh_handler envE (some infoNF) = veh_handler envW (some infoNF)) :=
  ⟨⟨rfl, by decide⟩, veh_nonfatal_no_capture envW envE infoNF recNF rfl (by decide)⟩

/-- Claim C10: a null `EXCEPTION_POINTERS` argument or a null exception record
makes the handler return "continue searching" immediately, without
classifying, building a record, or handing anything off; the result is
independent of the OS environment. -/
theorem veh_null_guard (env : OS) (info : Option ExceptionPointers)
    (h : info = none ∨ ∃ p, info = some p ∧ p.exceptionRecord = none) :
    veh_handler env info = ⟨EXCEPTION_CONTINUE_SEARCH, []⟩ ∧
    ∀ env' : OS, veh_handler env' info = veh_handler env info := by
  rcases h with h | ⟨p, hp, hrec⟩
  · subst h
    exact ⟨rfl, fun env' => rfl⟩
  · subst hp
    constructor
    · simp [veh_handler, hrec]
    · intro env'
      simp [veh_handler, hrec]

/-- Witness for C10: the null-pointer case at a concrete environment. -/
theorem veh_null_guard_witness :
    ((none : Option ExceptionPointers) = none ∨
     ∃ p, (none : Option ExceptionPointers) = some p ∧ p.exceptionRecord = none) ∧
    (veh_handler envW none = ⟨EXCEPTION_CONTINUE_SEARCH, []⟩ ∧
     ∀ env' : OS, veh_handler env' none = veh_handler envW none) :=
  ⟨Or.inl rfl, veh_null_guard envW none (Or.inl rfl)⟩

/-- Claim C2: for a fault whose code is in the fatal set, one invocation of
the handler performs exactly one handoff of exactly one record, whose
`address` is the fault's reported exception address and whose
`faulting_module` is the resolved name of the module containing that address;
when the unwind step first recovers the faulting program counter, the first
frame's offset is the fault address minus that module's base. -/
theorem veh_fatal_emits_single_record (env : OS) (p : ExceptionPointers)
    (r : ExceptionRecord) (m : ModuleImage)
    (hrec : p.exceptionRecord = some r)
    (hfatal : is_fatal_exception r.exceptionCode = true)
    (hm : m ∈ env.modules)
    (hin : moduleContains m r.exceptionAddress = true)
    (huniq : ∀ m' ∈ env.modules, moduleContains m' r.exceptionAddress = true → m' = m)
    (hw0 : env.stackWalk p.contextRecord 0 = some r.exceptionAddress)
    (haddr : r.exceptionAddress ≠ 0) :
    ∃ d, (veh_handler env (some p)).crashes = [d] ∧
      d.code = r.exceptionCode ∧
      d.address = r.exceptionAddress ∧
      d.faulting_module = basename m.path ∧
      ∃ f rest, capture_frames env p.contextRecord = f :: rest ∧
        f.module_offset = r.exceptionAddress - m.base ∧
        f.absolute_address = r.exceptionAddress := by
  have hfm : find_module env r.exceptionAddress = some m :=
    find_module_eq_some env r.exceptionAddress m hm hin huniq
  have hname : get_module_name env r.exceptionAddress = basename m.path := by
    simp [get_module_name, hfm]
  have hbase : get_module_base env r.exceptionAddress = m.base := by
    simp [get_module_base, hfm]
  have hcrash : (veh_handler env (some p)).crashes
      = [{ code := r.exceptionCode, address := r.exceptionAddress,
           stack_trace := capture_stack_trace env p.contextRecord,
           faulting_module := get_module_name env r.exceptionAddress }] := by
    simp [veh_handler, hrec, hfatal]
  have hframes : capture_frames env p.contextRecord
      = mkFrame env 0 r.exceptionAddress :: walkAux env p.contextRecord 1 63 := by
    rw [capture_frames, show (64 : Nat) = 63 + 1 from rfl]
    exact walkAux_step env p.contextRecord 0 63 r.exceptionAddress hw0 haddr
  refine ⟨_, hcrash, rfl, rfl, hname,
    mkFrame env 0 r.exceptionAddress, walkAux env p.contextRecord 1 63, hframes, ?_, rfl⟩
  simp [mkFrame, hbase]

/-- Witness for C2: the access violation at `0x401234` inside `game.exe`
(base `0x400000`) yields one record with offset `0x1234` in the first frame. -/
theorem veh_fatal_emits_single_record_witness :
    (infoW.exceptionRecord = some recW ∧
     is_fatal_exception recW.exceptionCode = true ∧
     modW ∈ envW.modules ∧
     moduleContains modW recW.exceptionAddress = true ∧
     (∀ m' ∈ envW.modules, moduleContains m' recW.exceptionAddress = true → m' = modW) ∧
     envW.stackWalk infoW.contextRecord 0 = some recW.exceptionAddress ∧
     recW.exceptionAddress ≠ 0) ∧
    (∃ d, (veh_handler envW (some infoW)).crashes = [d] ∧
      d.code = recW.exceptionCode ∧
      d.address = recW.exceptionAddress ∧
      d.faulting_module = basename modW.path ∧
      ∃ f rest, capture_frames envW infoW.contextRecord = f :: rest ∧
        f.module_offset = recW.exceptionAddress - modW.base ∧
        f.absolute_address = recW.exceptionAddress) :=
  ⟨⟨rfl, by decide, by decide, by decide, by decide, rfl, by decide⟩,
   veh_fatal_emits_single_record envW infoW recW modW rfl (by decide) (by decide)
     (by decide) (by decide) rfl (by decide)⟩

/-- Claim C6: the walk ends exactly on unwind failure, a zero recovered
program counter, or the 64-frame cap, returning the frames already collected;
in particular when the unwind step succeeds (nonzero) on its first three
calls and fails on the fourth, the trace has exactly the 3 frames 0, 1, 2. -/
theorem stack_walk_termination_conditions (env : OS) (ctx : Context)
    (h012 : ∀ i, i < 3 → ∃ pc, env.stackWalk ctx i = some pc ∧ pc ≠ 0)
    (h3 : env.stackWalk ctx 3 = none) :
    (∀ (env' : OS) (ctx' : Context),
        (capture_frames env' ctx').length ≤ 64 ∧
        ((capture_frames env' ctx').length < 64 →
          env'.stackWalk ctx' (capture_frames env' ctx').length = none ∨
          env'.stackWalk ctx' (capture_frames env' ctx').length = some 0) ∧
        (∀ k, k < (capture_frames env' ctx').length →
          ∃ pc, env'.stackWalk ctx' k = some pc ∧ pc ≠ 0)) ∧
    (capture_frames env ctx).length = 3 ∧
    (capture_frames env ctx).map StackFrame.index = [0, 1, 2] := by
  have hgen : ∀ (env' : OS) (ctx' : Context),
      (capture_frames env' ctx').length ≤ 64 ∧
      ((capture_frames env' ctx').length < 64 →
        env'.stackWalk ctx' (capture_frames env' ctx').length = none ∨
        env'.stackWalk ctx' (capture_frames env' ctx').length = some 0) ∧
      (∀ k, k < (capture_frames env' ctx').length →
        ∃ pc, env'.stackWalk ctx' k = some pc ∧ pc ≠ 0) := by
    intro env' ctx'
    exact ⟨capture_frames_length_le env' ctx',
      fun hlt => capture_frames_stop env' ctx' hlt,
      fun k hk => capture_frames_success env' ctx' k hk⟩
  have hlen : (capture_frames env ctx).length = 3 := by
    have hle : (capture_frames env ctx).length ≤ 64 := capture_frames_length_le env ctx
    by_contra hne
    rcases Nat.lt_or_ge (capture_frames env ctx).length 3 with hlt | hge
    · obtain ⟨pc, hpc, hnz⟩ := h012 _ hlt
      rcases capture_frames_stop env ctx (by omega) with h' | h' <;> rw [h'] at hpc
      · exact Option.noConfusion hpc
      · exact hnz (Option.some.inj hpc).symm
    · have h3lt : 3 < (capture_frames env ctx).length := by omega
      obtain ⟨pc, hpc, _⟩ := capture_frames_success env ctx 3 h3lt
      rw [h3] at hpc
      exact Option.noConfusion hpc
  refine ⟨hgen, hlen, ?_⟩
  rw [capture_frames_map_index env ctx, hlen]
  decide

/-- Witness for C6: an unwind step that succeeds with a nonzero program
counter three times and then fails produces exactly the frames 0, 1, 2. -/
theorem stack_walk_termination_conditions_witness :
    ((∀ i, i < 3 → ∃ pc, env6.stackWalk ctx6 i = some pc ∧ pc ≠ 0) ∧
     env6.stackWalk ctx6 3 = none) ∧
    ((∀ (env' : OS) (ctx' : Context),
        (capture_frames env' ctx').length ≤ 64 ∧
        ((capture_frames env' ctx').length < 64 →
          env'.stackWalk ctx' (capture_frames env' ctx').length = none ∨
          env'.stackWalk ctx' (capture_frames env' ctx').length = some 0) ∧
        (∀ k, k < (capture_frames env' ctx').length →
          ∃ pc, env'.stackWalk ctx' k = some pc ∧ pc ≠ 0)) ∧
     (capture_frames env6 ctx6).length = 3 ∧
     (capture_frames env6 ctx6).map StackFrame.index = [0, 1, 2]) :=
  ⟨⟨fun i hi => ⟨0x1000 + i, by simp [env6, hi], by omega⟩, rfl⟩,
   stack_walk_termination_conditions env6 ctx6
     (fun i hi => ⟨0x1000 + i, by simp [env6, hi], by omega⟩) rfl⟩

/-- Claim C7: the module resolver never fails: an address inside the unique
containing module `m` resolves to `m`'s file name and base with offset
`addr - base`; an address outside every module resolves to `"unknown"`, base
`0`, offset equal to the address; and every produced frame's name is either a
resolved module file name or `"unknown"`, with
`module_offset = absolute_address - module_base`. -/
theorem module_resolver_spec (env : OS) (ctx : Context) (addr addrOut : Nat)
    (m : ModuleImage)
    (hm : m ∈ env.modules)
    (hin : moduleContains m addr = true)
    (huniq : ∀ m' ∈ env.modules, moduleContains m' addr = true → m' = m)
    (hout : ∀ m' ∈ env.modules, moduleContains m' addrOut = false) :
    (get_module_name env addr = basename m.path ∧
     get_module_base env addr = m.base ∧
     addr - get_module_base env addr = addr - m.base) ∧
    (get_module_name env addrOut = "unknown" ∧
     get_module_base env addrOut = 0 ∧
     addrOut - get_module_base env addrOut = addrOut) ∧
    (∀ f ∈ capture_frames env ctx,
      (f.module_name = "unknown" ∨
       ∃ mm ∈ env.modules, f.module_name = basename mm.path) ∧
      f.module_offset = f.absolute_address - get_module_base env f.absolute_address) := by
  have hfm := find_module_eq_some env addr m hm hin huniq
  have hfo := find_module_eq_none env addrOut hout
  refine ⟨⟨?_, ?_, ?_⟩, ⟨?_, ?_, ?_⟩, ?_⟩
  · simp [get_module_name, hfm]
  · simp [get_module_base, hfm]
  · simp [get_module_base, hfm]
  · simp [get_module_name, hfo]
  · simp [get_module_base, hfo]
  · simp [get_module_base, hfo]
  · intro f hf
    have hsh := walkAux_shape env ctx 64 0 f hf
    constructor
    · have hn := congrArg StackFrame.module_name hsh
      simp only [mkFrame] at hn
      rcases hq : find_module env f.absolute_address with _ | mm
      · left
        rw [hn]
        simp [get_module_name, hq]
      · right
        refine ⟨mm, List.mem_of_find?_eq_some hq, ?_⟩
        rw [hn]
        simp [get_module_name, hq]
    · have ho := congrArg StackFrame.module_offset hsh
      have ha := congrArg StackFrame.absolute_address hsh
      simp only [mkFrame] at ho ha
      rw [ho]

/-- Witness for C7: `0x401234` resolves inside `game.exe`, `0x100` resolves
outside every module, and the produced frames obey the invariants. -/
theorem module_resolver_spec_witness :
    (modW ∈ envW.modules ∧
     moduleContains modW 0x401234 = true ∧
     (∀ m' ∈ envW.modules, moduleContains m' 0x401234 = true → m' = modW) ∧
     (∀ m' ∈ envW.modules, moduleContains m' 0x100 = false)) ∧
    ((get_module_name envW 0x401234 = basename modW.path ∧
      get_module_base envW 0x401234 = modW.base ∧
      0x401234 - get_module_base envW 0x401234 = 0x401234 - modW.base) ∧
     (get_module_name envW 0x100 = "unknown" ∧
      get_module_base envW 0x100 = 0 ∧
      0x100 - get_module_base envW 0x100 = 0x100) ∧
     (∀ f ∈ capture_frames envW infoW.contextRecord,
       (f.module_name = "unknown" ∨
        ∃ mm ∈ envW.modules, f.module_name = basename mm.path) ∧
       f.module_offset = f.absolute_address - get_module_base envW f.absolute_address)) :=
  ⟨⟨by decide, by decide, by decide, by decide⟩,
   module_resolver_spec envW infoW.contextRecord 0x401234 0x100 modW
     (by decide) (by decide) (by decide) (by decide)⟩

/-- Claim C8 (code bug): `register_veh_handler` adds `veh_handler` to the VEH
chain unconditionally, so after two registrations a single fatal fault invokes
the handler once per chain entry (each invocation returning "continue
searching") and `handle_crash` runs twice — two records, not at most one. -/
theorem double_registration_duplicates_records :
    (dispatch_fault envW (some infoW) (register_veh_handler 0)).length = 1 ∧
    (dispatch_fault envW (some infoW)
        (register_veh_handler (register_veh_handler 0))).length = 2 ∧
    ¬ (dispatch_fault envW (some infoW)
        (register_veh_handler (register_veh_handler 0))).length ≤ 1 := by
  decide

/-- Counterexample to claim C9 as stated: at the packed value `0x04020150`
(byte3 = 4, byte2 = 2, byte1 = 1, byte0 = 80) the cited 3-component providers
print `"4.2.80"` — the `byte3.byte2.byte0` layout — which matches neither of
the claim's two allowed layouts `byte3.byte2.(byte1<<8|byte0)` (`"4.2.336"`)
nor `byte3.byte2.byte1` (`"4.2.1"`). -/
theorem version_provider_layout_counterexample :
    falloutnv.get_nvse_version (some ⟨0, 0x04020150⟩) = "4.2.80" ∧
    fallout3.get_fose_version (some ⟨0, 0x04020150⟩) = "4.2.80" ∧
    spec_dotted3_low16 0x04020150 = "4.2.336" ∧
    spec_dotted3_byte1 0x04020150 = "4.2.1" ∧
    ¬ (falloutnv.get_nvse_version (some ⟨0, 0x04020150⟩) = spec_dotted3_low16 0x04020150 ∨
       falloutnv.get_nvse_version (some ⟨0, 0x04020150⟩) = spec_dotted3_byte1 0x04020150) ∧
    ¬ (fallout3.get_fose_version (some ⟨0, 0x04020150⟩) = spec_dotted3_low16 0x04020150 ∨
       fallout3.get_fose_version (some ⟨0, 0x04020150⟩) = spec_dotted3_byte1 0x04020150) := by
  decide

/-- Claim C9 (amended): for every 32-bit packed value the adapters' version
providers return — for the runtime/game version the 4-component string
`byte3.byte2.byte1.byte0`; for the loader/framework version the 3-component
string `byte3.byte2.byte0` (not either layout named in the spec); and when no
live interface value is available (the interface pointer is null), the
literal string `"unknown"`. -/
theorem version_provider_formats (v w : Nat) :
    falloutnv.get_game_version (some ⟨v, w⟩) = spec_dotted4 v ∧
    falloutnv.get_nvse_version (some ⟨v, w⟩) = spec_dotted3_byte0 w ∧
    fallout3.get_fose_version (some ⟨v, w⟩) = spec_dotted3_byte0 w ∧
    falloutnv.get_game_version none = "unknown" ∧
    falloutnv.get_nvse_version none = "unknown" ∧
    fallout3.get_fose_version none = "unknown" :=
  ⟨rfl, rfl, rfl, rfl, rfl, rfl⟩
